import Mathlib

/-!
Shallow embedding of the mcp-tee-sample repository (src/server.py and
src/agent.py): the secret inventory, the three gated tools, the
attestation-status reporter, and the client verifier decision logic.

External effects (httpx calls, asyncpg queries, the system clock, the
filesystem markers) are modelled as explicit inputs: each tool takes the
outcome of its outbound call as an oracle argument and returns, besides
its result, a record of the outbound request it performed (`none` when no
outbound call was made). A Python function that returns a dict with an
`error` key is modelled as `ToolResult.errorPayload`; an uncaught Python
exception escaping the tool body is modelled as `ToolResult.raised`.
-/

namespace McpTee

/-- Process environment at startup: the three secret values read by
`os.environ.get(..., "")` at the top of server.py.  An absent variable is
the empty string, exactly as in the source. -/
structure Env where
  GITHUB_TOKEN : String
  DB_CONNECTION_STRING : String
  WEBHOOK_URL : String
deriving Repr, DecidableEq

/-- `_check_secrets` from server.py: which secrets are loaded (not their
values).  Python `bool(s)` on a string is true iff the string is
non-empty; the dict preserves insertion order, modelled as an association
list. -/
def check_secrets (e : Env) : List (String × Bool) :=
  [("GITHUB_TOKEN", !e.GITHUB_TOKEN.isEmpty),
   ("DB_CONNECTION_STRING", !e.DB_CONNECTION_STRING.isEmpty),
   ("WEBHOOK_URL", !e.WEBHOOK_URL.isEmpty)]

/-- Outcome of an httpx request as observed by the tool body: either a
response with an HTTP status code and a parsed body, or a raised
transport-level exception. -/
inductive HttpResult (β : Type) where
  | response (status : Nat) (body : β)
  | transportError (msg : String)
deriving Repr, DecidableEq

/-- `Response.raise_for_status` raises for 4xx/5xx status codes. -/
def statusRaises (status : Nat) : Bool := 400 ≤ status

/-- Result of a tool invocation: a success payload, a returned
`{"error": ...}` dict, or an uncaught exception propagating out of the
tool body. -/
inductive ToolResult (α : Type) where
  | ok (payload : α)
  | errorPayload (msg : String)
  | raised (exn : String)
deriving Repr, DecidableEq

/-- True exactly when the tool returned a structured `{"error": ...}`
payload. -/
def isStructuredError {α : Type} : ToolResult α → Bool
  | .errorPayload _ => true
  | _ => false

/-- True exactly when the tool body let an exception propagate. -/
def didRaise {α : Type} : ToolResult α → Bool
  | .raised _ => true
  | _ => false

/-- A label object as returned by the GitHub search API (only the `name`
field is read by the tool). -/
structure GithubLabel where
  name : String
deriving Repr, DecidableEq

/-- An item of the GitHub issue-search response body, with the fields the
tool reads. -/
structure GithubItem where
  number : Int
  title : String
  state : String
  html_url : String
  updated_at : String
  labels : List GithubLabel
deriving Repr, DecidableEq

/-- Parsed JSON body of the GitHub search response (`resp.json()`). -/
structure GithubBody where
  total_count : Int
  items : List GithubItem
deriving Repr, DecidableEq

/-- One issue of the tool result, reduced to the fields the tool maps. -/
structure Issue where
  number : Int
  title : String
  state : String
  url : String
  updated_at : String
  labels : List String
deriving Repr, DecidableEq

/-- Success payload of `github_search_issues`. -/
structure GithubSuccess where
  total_count : Int
  returned : Nat
  issues : List Issue
deriving Repr, DecidableEq

/-- The outbound GitHub request parameters the tool would send. -/
structure GithubRequest where
  q : String
  per_page : Int
deriving Repr, DecidableEq

/-- Python default of the `max_results` argument of
`github_search_issues`. -/
def github_search_issues_default_max_results : Int := 10

/-- `github_search_issues` from server.py.  `upstream` is the oracle for
the httpx GET to the GitHub search endpoint; the second component records
the outbound request actually performed (`none` = no network call).
Python ints are modelled as `Int`; `min(max(1, max_results), 50)` is the
clamp on line 90.  The httpx call and `raise_for_status` are NOT wrapped
in a try/except in the source, so a transport error or 4xx/5xx status
propagates as `ToolResult.raised`. -/
def github_search_issues (e : Env) (query repo : String) (max_results : Int)
    (upstream : HttpResult GithubBody) :
    ToolResult GithubSuccess × Option GithubRequest :=
  if e.GITHUB_TOKEN.isEmpty then
    (.errorPayload "GITHUB_TOKEN not available — attestation may have failed", none)
  else
    let mr : Int := min (max 1 max_results) 50
    let q : String := if repo.isEmpty then query else query ++ " repo:" ++ repo
    let req : GithubRequest := { q := q, per_page := mr }
    match upstream with
    | .transportError msg => (.raised ("httpx.TransportError: " ++ msg), some req)
    | .response status body =>
      if statusRaises status then
        (.raised ("httpx.HTTPStatusError: status " ++ toString status), some req)
      else
        let issues : List Issue :=
          (body.items.take mr.toNat).map (fun item =>
            { number := item.number, title := item.title, state := item.state,
              url := item.html_url, updated_at := item.updated_at,
              labels := item.labels.map (fun l => l.name) })
        (.ok { total_count := body.total_count, returned := issues.length,
               issues := issues }, some req)

/-- Whether `pat` occurs as a contiguous sublist of `hay` (Python's
`pat in hay` on strings, over the character lists). -/
def containsSub (hay pat : List Char) : Bool :=
  pat.isPrefixOf hay ||
    match hay with
    | [] => false
    | _ :: t => containsSub t pat

/-- Python `str.strip()`: remove leading and trailing whitespace, over
the character list. -/
def pyStrip (l : List Char) : List Char :=
  ((l.dropWhile Char.isWhitespace).reverse.dropWhile Char.isWhitespace).reverse

/-- Python `str.upper()` (ASCII case fold, as used on the inputs of this
server). -/
def pyUpper (s : String) : String := String.mk (s.toList.map Char.toUpper)

/-- `sql.strip().upper()` from `query_database`, as a character list. -/
def sqlUpper (sql : String) : List Char :=
  (pyStrip sql.toList).map Char.toUpper

/-- The forbidden-keyword list of `query_database` (server.py line 150). -/
def forbiddenKeywords : List String :=
  ["INSERT", "UPDATE", "DELETE", "DROP", "ALTER", "CREATE", "TRUNCATE", "EXEC"]

/-- A database row (`dict(row)`); the value rendering is irrelevant to
the tool logic, only row identity and count matter. -/
abbrev Row := List (String × String)

/-- Outcome of the asyncpg interaction: fetched rows, a raised exception
(from `connect` or `fetch`), or `import asyncpg` failing. -/
inductive DbResult where
  | rows (rs : List Row)
  | failure (exnType exnMsg : String)
  | importError
deriving Repr, DecidableEq

/-- Success payload of `query_database`. -/
structure DbSuccess where
  row_count : Nat
  truncated : Bool
  rows : List Row
deriving Repr, DecidableEq

/-- Python default of the `max_rows` argument of `query_database`. -/
def query_database_default_max_rows : Int := 100

/-- `query_database` from server.py.  The secret gate, then the
SELECT-prefix check on `sql.strip().upper()`, then the forbidden-keyword
substring scan, then the clamp `min(max(1, max_rows), 1000)`, then the
asyncpg call inside try/except: every exception there is caught and
returned as a structured error payload.  Second component: whether an
outbound connection was attempted. -/
def query_database (e : Env) (sql : String) (max_rows : Int)
    (upstream : DbResult) : ToolResult DbSuccess × Bool :=
  if e.DB_CONNECTION_STRING.isEmpty then
    (.errorPayload "DB_CONNECTION_STRING not available — attestation may have failed",
     false)
  else
    let sql_upper := sqlUpper sql
    if !("SELECT".toList.isPrefixOf sql_upper) then
      (.errorPayload "Only SELECT queries are permitted (read-only mode)", false)
    else
      match forbiddenKeywords.find? (fun keyword => containsSub sql_upper keyword.toList) with
      | some keyword =>
        (.errorPayload ("Query contains forbidden keyword: " ++ keyword), false)
      | none =>
        let mr : Int := min (max 1 max_rows) 1000
        match upstream with
        | .importError =>
          (.errorPayload "asyncpg not installed — database queries require the asyncpg package",
           false)
        | .failure exnType exnMsg =>
          (.errorPayload ("Query failed: " ++ exnType ++ ": " ++ exnMsg), true)
        | .rows rs =>
          let result := rs.take mr.toNat
          (.ok { row_count := result.length,
                 truncated := mr < (rs.length : Int),
                 rows := result }, true)

/-- The JSON payload `send_notification` posts to the webhook. -/
structure SlackPayload where
  channel : String
  text : String
  username : String
  icon_emoji : String
deriving Repr, DecidableEq

/-- Success payload of `send_notification`. -/
structure NotifySuccess where
  status : String
  channel : String
  urgency : String
  timestamp : String
deriving Repr, DecidableEq

/-- Python defaults of the `channel` and `urgency` arguments of
`send_notification`. -/
def send_notification_default_channel : String := "general"

/-- Python default of the `urgency` argument of `send_notification`. -/
def send_notification_default_urgency : String := "normal"

/-- `send_notification` from server.py.  `now` is the oracle for
`datetime.now(timezone.utc).isoformat()`.  The urgency check is the exact
membership test `urgency not in ("low", "normal", "high")`.  The httpx
POST and `raise_for_status` are NOT wrapped in a try/except, so failures
propagate as `ToolResult.raised`.  Second component: the payload posted
to the webhook (`none` = no network call). -/
def send_notification (e : Env) (message channel urgency : String)
    (upstream : HttpResult Unit) (now : String) :
    ToolResult NotifySuccess × Option SlackPayload :=
  if e.WEBHOOK_URL.isEmpty then
    (.errorPayload "WEBHOOK_URL not available — attestation may have failed", none)
  else if !(urgency == "low" || urgency == "normal" || urgency == "high") then
    (.errorPayload "urgency must be \x27low\x27, \x27normal\x27, or \x27high\x27", none)
  else
    let payload : SlackPayload :=
      { channel := "#" ++ channel,
        text := "[" ++ pyUpper urgency ++ "] " ++ message,
        username := "mcp-tee-server",
        icon_emoji := if urgency == "high" then ":lock:" else ":robot_face:" }
    match upstream with
    | .transportError msg => (.raised ("httpx.TransportError: " ++ msg), some payload)
    | .response status _ =>
      if statusRaises status then
        (.raised ("httpx.HTTPStatusError: status " ++ toString status), some payload)
      else
        (.ok { status := "delivered", channel := channel, urgency := urgency,
               timestamp := now }, some payload)

/-- The filesystem evidence markers `attestation_status` inspects:
`/sys/kernel/security/tee`, `/dev/sev-guest`, `/dev/sev`. -/
structure Markers where
  teePath : Bool
  sevGuest : Bool
  sev : Bool
deriving Repr, DecidableEq

/-- The status record returned by `attestation_status`. -/
structure AttestationStatus where
  server : String
  version : String
  running_in_tee : Bool
  tee_type : String
  secrets_loaded : List (String × Bool)
  timestamp : String
deriving Repr, DecidableEq

/-- `attestation_status` from server.py.  `m` is the oracle for the three
`os.path.exists` checks, `now` for the timestamp. -/
def attestation_status (e : Env) (m : Markers) (now : String) :
    AttestationStatus :=
  let tee_evidence := m.teePath
  let snp_evidence := m.sevGuest || m.sev
  { server := "mcp-tee-server",
    version := "1.0.0",
    running_in_tee := tee_evidence || snp_evidence,
    tee_type :=
      if snp_evidence then "AMD SEV-SNP"
      else if tee_evidence then "TEE detected" else "none detected",
    secrets_loaded := check_secrets e,
    timestamp := now }

/-- The parsed JSON object the agent receives from the status tool, as a
partial record: `none` models a missing key (`dict.get` falls back to its
default). -/
structure RawStatus where
  server : Option String
  version : Option String
  running_in_tee : Option Bool
  tee_type : Option String
  secrets_loaded : Option (List (String × Bool))
  timestamp : Option String
deriving Repr, DecidableEq

/-- The payload object with every key missing (Python `{}`). -/
def emptyRawStatus : RawStatus :=
  { server := none, version := none, running_in_tee := none,
    tee_type := none, secrets_loaded := none, timestamp := none }

/-- What the client verifier extracts and derives from a parsed status
payload (agent.py lines 44-78): the defaulted fields, the missing-secret
list, the trust decision, and the function return value. -/
structure Report where
  server_name : String
  version : String
  running_in_tee : Bool
  tee_type : String
  secrets_loaded : List (String × Bool)
  timestamp : String
  missing_secrets : List String
  fully_attested : Bool
  exit_code : Nat
deriving Repr, DecidableEq

/-- The decision portion of `run` in agent.py: extract each field with
`data.get(key, default)`, compute `missing_secrets` (names whose loaded
flag is false, in record order), `fully_attested`, and the return value
`0 if fully_attested else 1`. -/
def agent_verify (data : RawStatus) : Report :=
  let server_name := data.server.getD "unknown"
  let version := data.version.getD "unknown"
  let running_in_tee := data.running_in_tee.getD false
  let tee_type := data.tee_type.getD "unknown"
  let secrets_loaded := data.secrets_loaded.getD []
  let timestamp := data.timestamp.getD "unknown"
  let missing_secrets := (secrets_loaded.filter (fun p => !p.2)).map (fun p => p.1)
  let fully_attested := running_in_tee && missing_secrets.isEmpty
  { server_name := server_name, version := version,
    running_in_tee := running_in_tee, tee_type := tee_type,
    secrets_loaded := secrets_loaded, timestamp := timestamp,
    missing_secrets := missing_secrets, fully_attested := fully_attested,
    exit_code := if fully_attested then 0 else 1 }

/-- The end-to-end example payload of the spec: two secrets `A` (loaded)
and `B` (missing), running in a TEE. -/
def exampleStatusAB : RawStatus :=
  { server := some "s", version := some "1.0.0",
    running_in_tee := some true, tee_type := some "amd-sev-snp",
    secrets_loaded := some [("A", true), ("B", false)],
    timestamp := some "2024-01-01T00:00:00Z" }

/-- A canonical environment with only the database secret present. -/
def envDbOnly : Env := ⟨"", "x", ""⟩

/-- A canonical environment with only the GitHub token present. -/
def envGithubOnly : Env := ⟨"t", "", ""⟩

/-- A canonical environment with only the webhook URL present. -/
def envWebhookOnly : Env := ⟨"", "", "w"⟩

/-- Once the secret gate is open, `query_database` does not depend on the
environment: it reads `DB_CONNECTION_STRING` only in the gate (the
connection itself is behind the upstream oracle). -/
theorem query_database_env_const (e : Env)
    (h : e.DB_CONNECTION_STRING.isEmpty = false)
    (sql : String) (mr : Int) (up : DbResult) :
    query_database e sql mr up = query_database envDbOnly sql mr up := by
  have hx : envDbOnly.DB_CONNECTION_STRING.isEmpty = false := by decide
  simp [query_database, h, hx]

/-- Once the secret gate is open, `github_search_issues` does not depend
on the environment. -/
theorem github_search_issues_env_const (e : Env)
    (h : e.GITHUB_TOKEN.isEmpty = false)
    (query repo : String) (mr : Int) (up : HttpResult GithubBody) :
    github_search_issues e query repo mr up
      = github_search_issues envGithubOnly query repo mr up := by
  have hx : envGithubOnly.GITHUB_TOKEN.isEmpty = false := by decide
  simp [github_search_issues, h, hx]

/-- Once the secret gate is open, `send_notification` does not depend on
the environment. -/
theorem send_notification_env_const (e : Env)
    (h : e.WEBHOOK_URL.isEmpty = false)
    (message channel urgency : String) (up : HttpResult Unit) (now : String) :
    send_notification e message channel urgency up now
      = send_notification envWebhookOnly message channel urgency up now := by
  have hx : envWebhookOnly.WEBHOOK_URL.isEmpty = false := by decide
  simp [send_notification, h, hx]

/-- C2: for every capability, if its required secret is absent (the
corresponding environment variable is the empty string), invoking it with
any arguments and any hypothetical upstream behaviour returns the
SecretUnavailable-style error payload immediately, records no outbound
call, and performs no input validation (the same error results even for
invalid arguments): the secret gate is checked before anything else. -/
theorem C2_secret_gate :
    (∀ d w query repo mr up,
        github_search_issues ⟨"", d, w⟩ query repo mr up
          = (.errorPayload "GITHUB_TOKEN not available — attestation may have failed",
             none))
  ∧ (∀ g w sql mr up,
        query_database ⟨g, "", w⟩ sql mr up
          = (.errorPayload "DB_CONNECTION_STRING not available — attestation may have failed",
             false))
  ∧ (∀ g d msg ch u up now,
        send_notification ⟨g, d, ""⟩ msg ch u up now
          = (.errorPayload "WEBHOOK_URL not available — attestation may have failed",
             none)) := by
  refine ⟨fun d w query repo mr up => ?_, fun g w sql mr up => ?_,
          fun g d msg ch u up now => ?_⟩ <;> rfl

/-- C3: the client verifier computes `fully_attested` as
`running_in_tee AND (names whose loaded flag is false) is empty` and
returns `0` when fully attested, else `1` (so the return value is `0`
iff `fully_attested`); on the payload with
`secrets_loaded = {"A": true, "B": false}` and `running_in_tee = true`
the result is `1`. -/
theorem C3_trust_decision (data : RawStatus) :
    ((agent_verify data).fully_attested
        = (data.running_in_tee.getD false
            && ((((data.secrets_loaded.getD []).filter (fun p => !p.2)).map
                  (fun p => p.1)).isEmpty)))
  ∧ ((agent_verify data).exit_code
        = if (agent_verify data).fully_attested then 0 else 1)
  ∧ ((agent_verify exampleStatusAB).exit_code = 1) := by
  refine ⟨rfl, ?_, by decide⟩
  simp [agent_verify]

/-- C4: `attestation_status` reports `running_in_tee` true iff at least
one evidence marker is present, and labels `tee_type` with vendor
precedence: the string "AMD SEV-SNP" (the spec's `amd-sev-snp` tag)
whenever a SEV device path is present, even together with the generic
marker; "TEE detected" (the spec's `generic-tee` tag) when only the
generic marker is present; and with no markers it reports
`running_in_tee = false` with `tee_type = "none detected"`. -/
theorem C4_evidence_labeling (e : Env) (m : Markers) (t : String) :
    ((attestation_status e m t).running_in_tee
        = (m.teePath || (m.sevGuest || m.sev)))
  ∧ ((attestation_status e m t).tee_type
        = if m.sevGuest || m.sev then "AMD SEV-SNP"
          else if m.teePath then "TEE detected" else "none detected")
  ∧ ((attestation_status e ⟨false, false, false⟩ t).running_in_tee = false)
  ∧ ((attestation_status e ⟨false, false, false⟩ t).tee_type = "none detected")
  ∧ ((attestation_status e ⟨true, true, false⟩ t).tee_type = "AMD SEV-SNP") := by
  exact ⟨rfl, rfl, rfl, rfl, rfl⟩

/-- C9: the client verifier fills a default for every missing key of the
parsed status payload ("unknown" for the strings, `false` for the TEE
flag, the empty mapping for the secrets), so it completes on any payload
with return value 0 or 1; with every key missing it reports not attested
and returns 1. -/
theorem C9_missing_key_defaults (data : RawStatus) :
    ((agent_verify data).exit_code = 0 ∨ (agent_verify data).exit_code = 1)
  ∧ ((agent_verify data).server_name = data.server.getD "unknown")
  ∧ ((agent_verify data).version = data.version.getD "unknown")
  ∧ ((agent_verify data).running_in_tee = data.running_in_tee.getD false)
  ∧ ((agent_verify data).tee_type = data.tee_type.getD "unknown")
  ∧ ((agent_verify data).secrets_loaded = data.secrets_loaded.getD [])
  ∧ ((agent_verify data).timestamp = data.timestamp.getD "unknown")
  ∧ ((agent_verify emptyRawStatus).fully_attested = false)
  ∧ ((agent_verify emptyRawStatus).exit_code = 1) := by
  refine ⟨?_, rfl, rfl, rfl, rfl, rfl, rfl, by decide, by decide⟩
  by_cases hfa : (agent_verify data).fully_attested
  · left
    simp [agent_verify] at hfa ⊢
    simp [hfa]
  · right
    simp [agent_verify] at hfa ⊢
    intro h1
    simp [h1] at hfa
    simp [hfa]

/-- C5: with its secret present, `query_database` rejects with the
InvalidInput-style error any sql whose stripped, case-folded text does
not begin with SELECT (that check comes first, so "UPDATE t SET x=1"
draws the not-a-SELECT error), additionally rejects any sql whose
case-folded text contains one of the eight forbidden keywords as a
substring ("select * from t; DROP TABLE t" draws the forbidden-keyword
error for DROP), and "SELECT 1" passes both checks and proceeds to
execution. -/
theorem C5_sql_validation (e : Env) (h : e.DB_CONNECTION_STRING.isEmpty = false) :
    (∀ sql mr up, "SELECT".toList.isPrefixOf (sqlUpper sql) = false →
        query_database e sql mr up
          = (.errorPayload "Only SELECT queries are permitted (read-only mode)", false))
  ∧ (∀ sql mr up, "SELECT".toList.isPrefixOf (sqlUpper sql) = true →
        (∃ k ∈ forbiddenKeywords, containsSub (sqlUpper sql) k.toList = true) →
        ∃ k ∈ forbiddenKeywords, containsSub (sqlUpper sql) k.toList = true ∧
          query_database e sql mr up
            = (.errorPayload ("Query contains forbidden keyword: " ++ k), false))
  ∧ (∀ mr up, query_database e "UPDATE t SET x=1" mr up
        = (.errorPayload "Only SELECT queries are permitted (read-only mode)", false))
  ∧ (∀ mr up, query_database e "select * from t; DROP TABLE t" mr up
        = (.errorPayload "Query contains forbidden keyword: DROP", false))
  ∧ (∀ rs, (query_database e "SELECT 1" 100 (.rows rs)).1
        = .ok { row_count := (rs.take 100).length,
                truncated := decide ((100 : Int) < (rs.length : Int)),
                rows := rs.take 100 }) := by
  refine ⟨?_, ?_, ?_, ?_, ?_⟩
  · intro sql mr up hsel
    rw [query_database_env_const e h]
    simp only [query_database]
    rw [hsel]
    rfl
  · intro sql mr up hsel hex
    have hsome : (forbiddenKeywords.find?
        (fun kw => containsSub (sqlUpper sql) kw.toList)).isSome := by
      rw [List.find?_isSome]
      obtain ⟨k, hk, hc⟩ := hex
      exact ⟨k, hk, hc⟩
    obtain ⟨k, hfind⟩ := Option.isSome_iff_exists.mp hsome
    have hck : containsSub (sqlUpper sql) k.toList = true := by
      have h2 := List.find?_some hfind
      exact h2
    refine ⟨k, List.mem_of_find?_eq_some hfind, hck, ?_⟩
    rw [query_database_env_const e h]
    simp only [query_database]
    rw [hsel, hfind]
    rfl
  · intro mr up
    rw [query_database_env_const e h]
    rfl
  · intro mr up
    rw [query_database_env_const e h]
    rfl
  · intro rs
    rw [query_database_env_const e h]
    rfl

/-- Witness for C5 at the environment with only the database secret. -/
theorem C5_sql_validation_witness :
    query_database envDbOnly "UPDATE t SET x=1" 100 (.rows [])
      = (.errorPayload "Only SELECT queries are permitted (read-only mode)", false)
  ∧ query_database envDbOnly "select * from t; DROP TABLE t" 100 (.rows [])
      = (.errorPayload "Query contains forbidden keyword: DROP", false)
  ∧ (query_database envDbOnly "SELECT 1" 100 (.rows [[("a", "1")]])).1
      = .ok { row_count := 1, truncated := false, rows := [[("a", "1")]] } :=
  ⟨(C5_sql_validation envDbOnly (by decide)).2.2.1 100 (.rows []),
   (C5_sql_validation envDbOnly (by decide)).2.2.2.1 100 (.rows []),
   (C5_sql_validation envDbOnly (by decide)).2.2.2.2 [[("a", "1")]]⟩

/-- C6: the status path exposes only secret presence, never values.  For
any two environments that agree on which secrets are empty,
`_check_secrets` returns identical mappings and `attestation_status`
returns identical records apart from the timestamp (here an explicit
clock input): no character of a raw secret value flows into the status
payload. -/
theorem C6_status_presence_only (e1 e2 : Env)
    (hg : e1.GITHUB_TOKEN.isEmpty = e2.GITHUB_TOKEN.isEmpty)
    (hd : e1.DB_CONNECTION_STRING.isEmpty = e2.DB_CONNECTION_STRING.isEmpty)
    (hw : e1.WEBHOOK_URL.isEmpty = e2.WEBHOOK_URL.isEmpty) :
    check_secrets e1 = check_secrets e2
  ∧ ∀ m t1 t2,
      (attestation_status e1 m t1).server = (attestation_status e2 m t2).server
    ∧ (attestation_status e1 m t1).version = (attestation_status e2 m t2).version
    ∧ (attestation_status e1 m t1).running_in_tee
        = (attestation_status e2 m t2).running_in_tee
    ∧ (attestation_status e1 m t1).tee_type = (attestation_status e2 m t2).tee_type
    ∧ (attestation_status e1 m t1).secrets_loaded
        = (attestation_status e2 m t2).secrets_loaded := by
  have hcs : check_secrets e1 = check_secrets e2 := by
    simp [check_secrets, hg, hd, hw]
  exact ⟨hcs, fun m t1 t2 => ⟨rfl, rfl, rfl, rfl, hcs⟩⟩

/-- Witness for C6: two environments with different secret values but
the same presence pattern give the same status. -/
theorem C6_status_presence_only_witness :
    check_secrets ⟨"a", "", "x"⟩ = check_secrets ⟨"bb", "", "yz"⟩
  ∧ (attestation_status ⟨"a", "", "x"⟩ ⟨true, false, false⟩ "t1").secrets_loaded
      = (attestation_status ⟨"bb", "", "yz"⟩ ⟨true, false, false⟩ "t2").secrets_loaded :=
  ⟨(C6_status_presence_only ⟨"a", "", "x"⟩ ⟨"bb", "", "yz"⟩
      (by decide) (by decide) (by decide)).1,
   ((C6_status_presence_only ⟨"a", "", "x"⟩ ⟨"bb", "", "yz"⟩
      (by decide) (by decide) (by decide)).2 ⟨true, false, false⟩ "t1" "t2").2.2.2.2⟩

/-- C7: with its secret present, `send_notification` returns the
InvalidInput-style error for any urgency outside low/normal/high — in
particular "critical" — and for urgency "high" the delivered text posted
to the webhook is "[HIGH] " followed by the original message; when the
upstream call succeeds the tool reports delivery. -/
theorem C7_notification_urgency (e : Env) (h : e.WEBHOOK_URL.isEmpty = false) :
    (∀ msg ch u up now, (u == "low" || u == "normal" || u == "high") = false →
        send_notification e msg ch u up now
          = (.errorPayload "urgency must be \x27low\x27, \x27normal\x27, or \x27high\x27",
             none))
  ∧ (∀ msg ch up now, send_notification e msg ch "critical" up now
        = (.errorPayload "urgency must be \x27low\x27, \x27normal\x27, or \x27high\x27",
           none))
  ∧ (∀ msg ch up now,
        ((send_notification e msg ch "high" up now).2).map (fun p => p.text)
          = some ("[HIGH] " ++ msg))
  ∧ (∀ msg ch now status b, statusRaises status = false →
        (send_notification e msg ch "high" (.response status b) now).1
          = .ok { status := "delivered", channel := ch, urgency := "high",
                  timestamp := now }) := by
  refine ⟨?_, ?_, ?_, ?_⟩
  · intro msg ch u up now hu
    rw [send_notification_env_const e h]
    simp only [send_notification]
    rw [hu]
    rfl
  · intro msg ch up now
    rw [send_notification_env_const e h]
    rfl
  · intro msg ch up now
    rw [send_notification_env_const e h]
    cases up with
    | transportError m => rfl
    | response status b =>
      simp only [send_notification]
      cases hst : statusRaises status <;> rfl
  · intro msg ch now status b hst
    rw [send_notification_env_const e h]
    simp only [send_notification]
    rw [hst]
    rfl

/-- Witness for C7 at the environment with only the webhook secret. -/
theorem C7_notification_urgency_witness :
    send_notification envWebhookOnly "hello" "general" "critical"
        (.response 200 ()) "ts"
      = (.errorPayload "urgency must be \x27low\x27, \x27normal\x27, or \x27high\x27",
         none)
  ∧ ((send_notification envWebhookOnly "hello" "general" "high"
        (.response 200 ()) "ts").2).map (fun p => p.text) = some "[HIGH] hello"
  ∧ (send_notification envWebhookOnly "hello" "general" "high"
        (.response 200 ()) "ts").1
      = .ok { status := "delivered", channel := "general", urgency := "high",
              timestamp := "ts" } :=
  ⟨(C7_notification_urgency envWebhookOnly (by decide)).2.1 "hello" "general"
      (.response 200 ()) "ts",
   (C7_notification_urgency envWebhookOnly (by decide)).2.2.1 "hello" "general"
      (.response 200 ()) "ts",
   (C7_notification_urgency envWebhookOnly (by decide)).2.2.2 "hello" "general"
      "ts" 200 () (by decide)⟩

/-- C8: both numeric limits are clamped before use: the per_page sent by
`github_search_issues` is `min(max(1, max_results), 50)` (0 behaves as 1,
999 as 50, default 10), and `query_database` uses
`min(max(1, max_rows), 1000)` (5000 behaves as 1000), with the result's
truncated flag set exactly when the upstream row count exceeds the
clamped limit. -/
theorem C8_limit_clamping (e : Env) (hg : e.GITHUB_TOKEN.isEmpty = false)
    (hd : e.DB_CONNECTION_STRING.isEmpty = false) :
    (∀ q r mr up, ((github_search_issues e q r mr up).2).map (fun req => req.per_page)
        = some (min (max 1 mr) 50))
  ∧ (∀ q r up, github_search_issues e q r 0 up = github_search_issues e q r 1 up)
  ∧ (∀ q r up, github_search_issues e q r 999 up = github_search_issues e q r 50 up)
  ∧ github_search_issues_default_max_results = 10
  ∧ (∀ sql up, query_database e sql 5000 up = query_database e sql 1000 up)
  ∧ (∀ mr rs, (query_database e "SELECT 1" mr (.rows rs)).1
        = .ok { row_count := (rs.take (min (max 1 mr) 1000).toNat).length,
                truncated := decide (min (max 1 mr) 1000 < (rs.length : Int)),
                rows := rs.take (min (max 1 mr) 1000).toNat })
  ∧ query_database_default_max_rows = 100 := by
  refine ⟨?_, ?_, ?_, rfl, ?_, ?_, rfl⟩
  · intro q r mr up
    rw [github_search_issues_env_const e hg]
    cases up with
    | transportError m => rfl
    | response status b =>
      simp only [github_search_issues]
      cases hst : statusRaises status <;> rfl
  · intro q r up
    rw [github_search_issues_env_const e hg q r 0 up,
        github_search_issues_env_const e hg q r 1 up]
    rfl
  · intro q r up
    rw [github_search_issues_env_const e hg q r 999 up,
        github_search_issues_env_const e hg q r 50 up]
    rfl
  · intro sql up
    rw [query_database_env_const e hd sql 5000 up,
        query_database_env_const e hd sql 1000 up]
    rfl
  · intro mr rs
    rw [query_database_env_const e hd]
    rfl

/-- Witness for C8 at the environment with GitHub and database secrets. -/
theorem C8_limit_clamping_witness :
    ((github_search_issues ⟨"t", "x", ""⟩ "bug" "" 999
        (.transportError "down")).2).map (fun req => req.per_page) = some 50
  ∧ (query_database ⟨"t", "x", ""⟩ "SELECT 1" 5000 (.rows [])
      = query_database ⟨"t", "x", ""⟩ "SELECT 1" 1000 (.rows []))
  ∧ (query_database ⟨"t", "x", ""⟩ "SELECT 1" 5000 (.rows [[("a", "1")]])).1
      = .ok { row_count := 1, truncated := false, rows := [[("a", "1")]] } :=
  ⟨(C8_limit_clamping ⟨"t", "x", ""⟩ (by decide) (by decide)).1 "bug" "" 999
      (.transportError "down"),
   (C8_limit_clamping ⟨"t", "x", ""⟩ (by decide) (by decide)).2.2.2.2.1 "SELECT 1"
      (.rows []),
   (C8_limit_clamping ⟨"t", "x", ""⟩ (by decide) (by decide)).2.2.2.2.2.1 5000
      [[("a", "1")]]⟩

/-- C10: the urgency validation of `send_notification` is an exact,
case-sensitive string match against "low", "normal" and "high": any
other spelling, including "HIGH", "High" and values with surrounding
whitespace, draws the InvalidInput-style error, even though the accepted
value is upper-cased when building the delivered prefix. -/
theorem C10_urgency_case_sensitive (e : Env) (h : e.WEBHOOK_URL.isEmpty = false) :
    (∀ msg ch u up now, u ≠ "low" → u ≠ "normal" → u ≠ "high" →
        send_notification e msg ch u up now
          = (.errorPayload "urgency must be \x27low\x27, \x27normal\x27, or \x27high\x27",
             none))
  ∧ (∀ msg ch up now, send_notification e msg ch "HIGH" up now
        = (.errorPayload "urgency must be \x27low\x27, \x27normal\x27, or \x27high\x27",
           none))
  ∧ (∀ msg ch up now, send_notification e msg ch "High" up now
        = (.errorPayload "urgency must be \x27low\x27, \x27normal\x27, or \x27high\x27",
           none))
  ∧ (∀ msg ch up now, send_notification e msg ch " high" up now
        = (.errorPayload "urgency must be \x27low\x27, \x27normal\x27, or \x27high\x27",
           none))
  ∧ (∀ msg ch up now, send_notification e msg ch "high " up now
        = (.errorPayload "urgency must be \x27low\x27, \x27normal\x27, or \x27high\x27",
           none))
  ∧ (∀ msg ch up now,
        ((send_notification e msg ch "high" up now).2).map (fun p => p.text)
          = some ("[HIGH] " ++ msg)) := by
  refine ⟨?_, ?_, ?_, ?_, ?_, ?_⟩
  · intro msg ch u up now h1 h2 h3
    have hu : (u == "low" || u == "normal" || u == "high") = false := by
      simp [h1, h2, h3]
    rw [send_notification_env_const e h]
    simp only [send_notification]
    rw [hu]
    rfl
  · intro msg ch up now
    rw [send_notification_env_const e h]
    rfl
  · intro msg ch up now
    rw [send_notification_env_const e h]
    rfl
  · intro msg ch up now
    rw [send_notification_env_const e h]
    rfl
  · intro msg ch up now
    rw [send_notification_env_const e h]
    rfl
  · intro msg ch up now
    rw [send_notification_env_const e h]
    cases up with
    | transportError m => rfl
    | response status b =>
      simp only [send_notification]
      cases hst : statusRaises status <;> rfl

/-- Witness for C10: "HIGH" and a padded "high" are rejected while
"high" builds the upper-cased prefix. -/
theorem C10_urgency_case_sensitive_witness :
    send_notification envWebhookOnly "m" "general" "urgent"
        (.response 200 ()) "ts"
      = (.errorPayload "urgency must be \x27low\x27, \x27normal\x27, or \x27high\x27",
         none)
  ∧ send_notification envWebhookOnly "m" "general" "HIGH" (.response 200 ()) "ts"
      = (.errorPayload "urgency must be \x27low\x27, \x27normal\x27, or \x27high\x27",
         none)
  ∧ ((send_notification envWebhookOnly "m" "general" "high"
        (.response 200 ()) "ts").2).map (fun p => p.text) = some "[HIGH] m" :=
  ⟨(C10_urgency_case_sensitive envWebhookOnly (by decide)).1 "m" "general"
      "urgent" (.response 200 ()) "ts" (by decide) (by decide) (by decide),
   (C10_urgency_case_sensitive envWebhookOnly (by decide)).2.1 "m" "general"
      (.response 200 ()) "ts",
   (C10_urgency_case_sensitive envWebhookOnly (by decide)).2.2.2.2.2 "m"
      "general" (.response 200 ()) "ts"⟩

/-- C1 counterexample: with the secret present and valid input, a
transport failure of the external call makes `github_search_issues` and
`send_notification` propagate the exception out of the tool body instead
of returning a structured error payload, refuting the claim that all
three gated tools return an UpstreamFailure-style payload. -/
theorem C1_counterexample :
    isStructuredError (github_search_issues envGithubOnly "bug" "" 10
        (.transportError "connection refused")).1 = false
  ∧ didRaise (github_search_issues envGithubOnly "bug" "" 10
        (.transportError "connection refused")).1 = true
  ∧ isStructuredError (send_notification envWebhookOnly "hello" "general" "high"
        (.transportError "connection refused") "ts").1 = false
  ∧ didRaise (send_notification envWebhookOnly "hello" "general" "high"
        (.transportError "connection refused") "ts").1 = true := by
  exact ⟨rfl, rfl, rfl, rfl⟩

/-- C1 amended: with the gate and validation passing, only
`query_database` converts an external-call failure (asyncpg exception or
missing asyncpg) into a structured error payload; `github_search_issues`
and `send_notification` let a transport error or a non-success upstream
response propagate as an exception. -/
theorem C1_upstream_failure_amended :
    (∀ e sql mr ty m, e.DB_CONNECTION_STRING.isEmpty = false →
        "SELECT".toList.isPrefixOf (sqlUpper sql) = true →
        forbiddenKeywords.find? (fun kw => containsSub (sqlUpper sql) kw.toList)
          = none →
        query_database e sql mr (.failure ty m)
          = (.errorPayload ("Query failed: " ++ ty ++ ": " ++ m), true)
        ∧ query_database e sql mr .importError
          = (.errorPayload
              "asyncpg not installed — database queries require the asyncpg package",
             false))
  ∧ (∀ e q r mr m, e.GITHUB_TOKEN.isEmpty = false →
        didRaise (github_search_issues e q r mr (.transportError m)).1 = true)
  ∧ (∀ e q r mr st b, e.GITHUB_TOKEN.isEmpty = false → statusRaises st = true →
        didRaise (github_search_issues e q r mr (.response st b)).1 = true)
  ∧ (∀ e msg ch u m now, e.WEBHOOK_URL.isEmpty = false →
        (u == "low" || u == "normal" || u == "high") = true →
        didRaise (send_notification e msg ch u (.transportError m) now).1 = true)
  ∧ (∀ e msg ch u st now, e.WEBHOOK_URL.isEmpty = false →
        (u == "low" || u == "normal" || u == "high") = true →
        statusRaises st = true →
        didRaise (send_notification e msg ch u (.response st ()) now).1 = true) := by
  refine ⟨?_, ?_, ?_, ?_, ?_⟩
  · intro e sql mr ty m h hsel hfind
    constructor
    · rw [query_database_env_const e h]
      simp only [query_database]
      rw [hsel, hfind]
      rfl
    · rw [query_database_env_const e h]
      simp only [query_database]
      rw [hsel, hfind]
      rfl
  · intro e q r mr m h
    rw [github_search_issues_env_const e h]
    rfl
  · intro e q r mr st b h hst
    rw [github_search_issues_env_const e h]
    simp only [github_search_issues]
    rw [hst]
    rfl
  · intro e msg ch u m now h hu
    rw [send_notification_env_const e h]
    simp only [send_notification]
    rw [hu]
    rfl
  · intro e msg ch u st now h hu hst
    rw [send_notification_env_const e h]
    simp only [send_notification]
    rw [hu, hst]
    rfl

/-- Witness for the amended C1 at concrete failing upstreams. -/
theorem C1_upstream_failure_amended_witness :
    query_database envDbOnly "SELECT 1" 100 (.failure "ConnectionError" "refused")
      = (.errorPayload "Query failed: ConnectionError: refused", true)
  ∧ didRaise (github_search_issues envGithubOnly "bug" "" 10
      (.transportError "refused")).1 = true
  ∧ didRaise (github_search_issues envGithubOnly "bug" "" 10
      (.response 500 ⟨0, []⟩)).1 = true
  ∧ didRaise (send_notification envWebhookOnly "m" "general" "high"
      (.transportError "refused") "ts").1 = true
  ∧ didRaise (send_notification envWebhookOnly "m" "general" "high"
      (.response 500 ()) "ts").1 = true :=
  ⟨(C1_upstream_failure_amended.1 envDbOnly "SELECT 1" 100 "ConnectionError"
      "refused" (by decide) (by decide) (by decide)).1,
   C1_upstream_failure_amended.2.1 envGithubOnly "bug" "" 10 "refused" (by decide),
   C1_upstream_failure_amended.2.2.1 envGithubOnly "bug" "" 10 500 ⟨0, []⟩
      (by decide) (by decide),
   C1_upstream_failure_amended.2.2.2.1 envWebhookOnly "m" "general" "high"
      "refused" "ts" (by decide) (by decide),
   C1_upstream_failure_amended.2.2.2.2 envWebhookOnly "m" "general" "high" 500
      "ts" (by decide) (by decide) (by decide)⟩

end McpTee
